import Mathlib

/-!
Verification of the NBC station smoke-test harness (repository ibjnbcu/nbc-testing).

The repository contains three browser-driven test scripts sharing one design:
a per-target session runs a fixed sequence of DOM checks against a page handle
(a Selenium Chrome driver) and aggregates the verdicts, and an orchestrator
fans sessions out over a thread pool and collects one summary per target.

Shallow embedding.  Each DOM check in the source is a self-contained function
that catches every internal exception and appends exactly one verdict
(a dict with keys test / status / message, the status drawn from the literal
strings "PASS", "WARNING", "FAIL"), so a check is embedded as an
environment-supplied `CheckOutcome` (its status and message); the control flow
of the session runners, the summary computations, the thread-pool result
collection and the process exit codes are translated from the source line by
line.  Timestamps, float durations, success-rate percentages and the
report-rendering glue are not modelled: no claim mentions them and the
floating-point fields are never read back by the code under verification.

Namespaces mirror the source files:
`MultiSite`  = src/nbc_multi_site_tester.py (NBCSiteTester / NBCMultiSiteTester),
`MultiNbc`   = src/multi_nbc_test.py        (NBCStationTester, 13 checks),
`NbcTest`    = src/nbc_test.py              (NBCStationTester, 15 checks).
-/

/-- Verdict statuses appearing in the repository.  The three scripts use the
literal strings "PASS", "FAIL", "WARNING", "ERROR" and "SKIP". -/
inductive Status where
  | PASS
  | FAIL
  | WARNING
  | ERROR
  | SKIP
deriving DecidableEq, Repr

/-- One recorded verdict: the dicts appended to `self.results` in all three
scripts (key "details" in nbc_multi_site_tester.py plays the role of
"message"). -/
structure TestResult where
  test : String
  status : Status
  message : String
deriving DecidableEq, Repr

/-- Statuses an individual DOM check can produce.  Every check function in the
three scripts appends a verdict whose status is one of the literals "PASS",
"WARNING" or "FAIL"; internal exceptions are caught inside the check and
converted to "FAIL" (or "WARNING" for the browser-log and scroll checks), never
to "ERROR" or "SKIP" and never re-raised. -/
inductive CheckStatus where
  | PASS
  | WARNING
  | FAIL
deriving DecidableEq, Repr

/-- Map a check-level status to the recorded status. -/
def CheckStatus.toStatus : CheckStatus → Status
  | CheckStatus.PASS => Status.PASS
  | CheckStatus.WARNING => Status.WARNING
  | CheckStatus.FAIL => Status.FAIL

/-- The outcome of one DOM check against the live page: the status and the
formatted message the check would append.  The DOM inspection itself is the
externally-supplied behaviour of the page and is out of scope. -/
structure CheckOutcome where
  status : CheckStatus
  message : String
deriving DecidableEq, Repr

/-- The verdict a check with the given display name records. -/
def CheckOutcome.toResult (c : CheckOutcome) (name : String) : TestResult :=
  { test := name, status := c.status.toStatus, message := c.message }

/-- Count of verdicts with a given status, as in the list comprehensions
`len([r for r in self.results if r["status"] == ...])` of the source. -/
def countStatus (s : Status) (rs : List TestResult) : Nat :=
  rs.countP (fun r => decide (r.status = s))

/-- Count of verdicts whose status is FAIL or ERROR, as in
`len([r for r in self.results if r["status"] in ["FAIL", "ERROR"]])`
(src/nbc_multi_site_tester.py, line 479). -/
def countFailErr (rs : List TestResult) : Nat :=
  rs.countP (fun r => decide (r.status = Status.FAIL) || decide (r.status = Status.ERROR))

/-- Summary dict shape produced by `NBCStationTester.summary`
(src/multi_nbc_test.py, lines 374-395) and `NBCStationTester.get_summary`
(src/nbc_test.py, lines 603-624).  The `timestamp`, `duration_seconds` and
`performance` entries are not modelled (no claim reads them). -/
structure StationSummary where
  station_name : String
  station_url : String
  total_tests : Nat
  passed : Nat
  failed : Nat
  warnings : Nat
  errors : Nat
  overall_status : Status
  test_results : List TestResult
deriving DecidableEq, Repr

namespace MultiSite

/-- Environment of one `NBCSiteTester` session (src/nbc_multi_site_tester.py):
whether `create_driver` succeeds, the text of the creation error when it does
not, and the outcome of the homepage load and of each of the five DOM checks.
A homepage outcome of status FAIL stands for `test_homepage_loads` hitting the
page-load timeout or any other load failure (both record a FAIL verdict and
return False). -/
structure SiteEnv where
  driverOk : Bool
  driverErr : String
  homepage : CheckOutcome
  navMenu : CheckOutcome
  searchFeature : CheckOutcome
  contentArticles : CheckOutcome
  footerSection : CheckOutcome
  responsiveElements : CheckOutcome
deriving DecidableEq, Repr

/-- Summary dict shape of src/nbc_multi_site_tester.py site results.  The
`success_rate`, `duration` and `performance` entries are not modelled (floats
and timestamps never read by the claims); the dicts that carry no "skipped"
key (the early-return and synthetic error dicts, whose "skipped" entry is
never read anywhere in the source) are modelled with `skipped = 0`. -/
structure SiteSummary where
  site_name : String
  site_url : String
  total_tests : Nat
  passed : Nat
  failed : Nat
  warnings : Nat
  skipped : Nat
  test_results : List TestResult
  error : Option String
deriving DecidableEq, Repr

/-- Display name of the homepage-load check (`test_homepage_loads`). -/
def homepageTestName : String := "Homepage Load"

/-- Display names of the five DOM checks in execution order, the same literal
list the skip branch of `run_tests` iterates (lines 447-448). -/
def checkNames : List String :=
  ["Navigation Menu", "Search Feature", "Content Articles",
   "Footer Section", "Responsive Elements"]

/-- Outcomes of the five DOM checks in execution order. -/
def checkOutcomes (env : SiteEnv) : List CheckOutcome :=
  [env.navMenu, env.searchFeature, env.contentArticles,
   env.footerSection, env.responsiveElements]

/-- Message of each SKIP verdict recorded when the homepage load failed. -/
def skipMessage : String := "Skipped due to homepage load failure"

/-- Verdict list accumulated by the try-block of `run_tests` (lines 434-453):
the homepage verdict, then either the five check verdicts (when the first
recorded status is not FAIL) or one SKIP verdict per remaining check. -/
def sessionResults (env : SiteEnv) : List TestResult :=
  let r0 := env.homepage.toResult homepageTestName
  if r0.status ≠ Status.FAIL then
    r0 :: (checkNames.zip (checkOutcomes env)).map (fun p => p.2.toResult p.1)
  else
    r0 :: checkNames.map (fun n => { test := n, status := Status.SKIP, message := skipMessage })

/-- Summary computation `NBCSiteTester.get_summary` (lines 475-497). -/
def get_summary (name url : String) (rs : List TestResult) : SiteSummary :=
  { site_name := name
    site_url := url
    total_tests := rs.length
    passed := countStatus Status.PASS rs
    failed := countFailErr rs
    warnings := countStatus Status.WARNING rs
    skipped := countStatus Status.SKIP rs
    test_results := rs
    error := none }

/-- Verdict appended by `create_driver` when Chrome driver creation fails
(lines 92-98); `e` stands for the already-truncated exception text
`str(e)[:100]`. -/
def driverSetupVerdict (e : String) : TestResult :=
  { test := "Driver Setup", status := Status.ERROR
    message := "Failed to initialize Chrome driver: " ++ e }

/-- The dict returned early by `run_tests` when `create_driver` fails
(lines 418-432). -/
def driverFailSummary (name url : String) (e : String) : SiteSummary :=
  { site_name := name
    site_url := url
    total_tests := 1
    passed := 0
    failed := 1
    warnings := 0
    skipped := 0
    test_results := [driverSetupVerdict e]
    error := some "Chrome driver initialization failed" }

/-- A session run together with whether the `finally` block executed
`self.driver.quit()`. -/
structure SiteTrace where
  summary : SiteSummary
  driverQuit : Bool
deriving DecidableEq, Repr

/-- `NBCSiteTester.run_tests` (lines 413-473).  When `create_driver` fails the
method returns the error dict before entering the try/finally, so no teardown
runs (`self.driver` is None).  Otherwise the check block runs — every check
catches its own exceptions and appends exactly one verdict, so the defensive
`except` clause of lines 455-461 is unreachable — and the `finally` block
(lines 463-469) quits the driver on every path before `get_summary` is
returned. -/
def run_tests_trace (name url : String) (env : SiteEnv) : SiteTrace :=
  if env.driverOk then
    { summary := get_summary name url (sessionResults env), driverQuit := true }
  else
    { summary := driverFailSummary name url env.driverErr, driverQuit := false }

/-- The summary returned by `NBCSiteTester.run_tests`. -/
def run_tests (name url : String) (env : SiteEnv) : SiteSummary :=
  (run_tests_trace name url env).summary

/-- Behaviour of one submitted `test_single_site` call: either the inner
`NBCSiteTester.run_tests` runs with some environment, or the body raises and
the broad `except` of `test_single_site` (lines 520-537) builds a fatal dict. -/
inductive SiteRun where
  | runs (env : SiteEnv)
  | fatal (e : String)
deriving Repr

/-- The fatal-error dict of `NBCMultiSiteTester.test_single_site`
(lines 522-537). -/
def fatalSummary (name url e : String) : SiteSummary :=
  { site_name := name
    site_url := url
    total_tests := 1
    passed := 0
    failed := 1
    warnings := 0
    skipped := 0
    test_results := [{ test := "Site Test", status := Status.ERROR, message := "Fatal error: " ++ e }]
    error := some e }

/-- `NBCMultiSiteTester.test_single_site` (lines 514-537). -/
def test_single_site (name url : String) (b : SiteRun) : SiteSummary :=
  match b with
  | SiteRun.runs env => run_tests name url env
  | SiteRun.fatal e => fatalSummary name url e

/-- One task submitted to the thread pool in `run_all_tests` (lines 546-551):
its site name and url, the wall-clock duration in seconds the task ran, and
its behaviour — `Except.ok b` when the callable returned (so `future.result`
returns `test_single_site name url b`), `Except.error e` when the callable
raised past `test_single_site`, in which case `future.result` re-raises `e`. -/
structure SubmittedTask where
  name : String
  url : String
  duration : Nat
  behavior : Except String SiteRun
deriving Repr

/-- The synthetic error dict appended when `future.result` raises
(lines 580-597); its url is `self.sites_to_test.get(site_name, "")`, i.e. the
url the site was submitted with. -/
def exceptSummary (name url e : String) : SiteSummary :=
  { site_name := name
    site_url := url
    total_tests := 1
    passed := 0
    failed := 1
    warnings := 0
    skipped := 0
    test_results := [{ test := "Execution", status := Status.ERROR, message := e }]
    error := none }

/-- One iteration of the collection loop of `run_all_tests` (lines 557-597).
`concurrent.futures.as_completed` is called without a timeout and yields a
future only once it has finished running, and `Future.result(timeout)` applied
to a finished future returns its value (or re-raises the callable's exception)
immediately without consulting the timeout; hence the `timeout=60` argument on
line 562 can never raise and the task's wall-clock duration has no influence
on the recorded result. -/
def collectResult (t : SubmittedTask) : SiteSummary :=
  match t.behavior with
  | Except.ok b => test_single_site t.name t.url b
  | Except.error e => exceptSummary t.name t.url e

/-- The submission loop of `run_all_tests` (lines 546-551): one task per
configured site, in configuration order; `beh` supplies each task's duration
and behaviour. -/
def submit (sites : List (String × String))
    (beh : String × String → Nat × Except String SiteRun) : List SubmittedTask :=
  sites.map (fun s => { name := s.1, url := s.2, duration := (beh s).1, behavior := (beh s).2 })

/-- `NBCMultiSiteTester.run_all_tests` result aggregation (lines 539-606):
`self.all_results` receives exactly one summary per future, in completion
order — `completed` is the list of submitted tasks in the (arbitrary) order
`as_completed` yields them. -/
def run_all_tests (completed : List SubmittedTask) : List SiteSummary :=
  completed.map collectResult

/-- Worker-count computation of `NBCMultiSiteTester.__init__` (line 509):
`self.max_workers = min(max_workers, 10)`, the value handed to
`ThreadPoolExecutor(max_workers=...)` on line 546. -/
def init_max_workers (max_workers : Int) : Int :=
  min max_workers 10

/-- Python truthiness of the optional string `s.get('error')` as used on line
985: absent or empty string is falsy. -/
def errorFalsy : Option String → Bool
  | none => true
  | some e => e.isEmpty

/-- Exit code of `main` in src/nbc_multi_site_tester.py (lines 985-1005):
`sites_passed = len([s for s in results if s['failed'] == 0 and not
s.get('error')])`, returning 0 iff `sites_passed == total_sites`. -/
def main_exit (results : List SiteSummary) : Nat :=
  if results.countP (fun s => decide (s.failed = 0) && errorFalsy s.error) = results.length
  then 0 else 1

end MultiSite

namespace MultiNbc

/-- Environment of one `NBCStationTester` session (src/multi_nbc_test.py):
whether `setup` (driver construction) succeeds, the exception text recorded
when it does not, and the outcome of each of the 13 checks in execution
order. -/
structure StationEnv where
  setupOk : Bool
  setupErr : String
  perf : CheckOutcome
  pageSize : CheckOutcome
  jsErrors : CheckOutcome
  images : CheckOutcome
  videoPresence : CheckOutcome
  weatherWidget : CheckOutcome
  mobileResponsive : CheckOutcome
  adsPresence : CheckOutcome
  navMenu : CheckOutcome
  footerCompliance : CheckOutcome
  weatherNav : CheckOutcome
  adIframe : CheckOutcome
  videoFunctional : CheckOutcome
deriving DecidableEq, Repr

/-- Display names of the 13 checks in the order `run_all` executes them
(lines 350-365). -/
def checkNames : List String :=
  ["Page Load Performance", "Page Size Check", "JavaScript Errors",
   "Image Loading", "Video Players (Presence)", "Weather Widget",
   "Mobile Responsive", "Advertisements (Presence)", "Navigation Menu",
   "Footer Compliance", "Weather Page Navigation", "Ad Iframe Validation",
   "Video Player Functional Test"]

/-- Outcomes of the 13 checks in execution order. -/
def checkOutcomes (env : StationEnv) : List CheckOutcome :=
  [env.perf, env.pageSize, env.jsErrors, env.images, env.videoPresence,
   env.weatherWidget, env.mobileResponsive, env.adsPresence, env.navMenu,
   env.footerCompliance, env.weatherNav, env.adIframe, env.videoFunctional]

/-- Verdict list accumulated by the try-block of `run_all` (lines 349-365):
all 13 checks run unconditionally, each appending exactly one verdict (every
check converts its internal exceptions to a FAIL or WARNING verdict and never
raises). -/
def sessionResults (env : StationEnv) : List TestResult :=
  (checkNames.zip (checkOutcomes env)).map (fun p => p.2.toResult p.1)

/-- Verdict appended by `setup` on driver-construction failure (line 122). -/
def setupVerdict (e : String) : TestResult :=
  { test := "Browser Setup", status := Status.ERROR, message := e }

/-- `NBCStationTester.summary` (src/multi_nbc_test.py, lines 374-395):
`overall = "PASS" if failed == 0 and errors == 0 else "FAIL"`. -/
def summary (name url : String) (rs : List TestResult) : StationSummary :=
  { station_name := name
    station_url := url
    total_tests := rs.length
    passed := countStatus Status.PASS rs
    failed := countStatus Status.FAIL rs
    warnings := countStatus Status.WARNING rs
    errors := countStatus Status.ERROR rs
    overall_status :=
      if countStatus Status.FAIL rs = 0 ∧ countStatus Status.ERROR rs = 0
      then Status.PASS else Status.FAIL
    test_results := rs }

/-- A session run together with whether `teardown` executed
`self.driver.quit()`. -/
structure StationTrace where
  summary : StationSummary
  driverQuit : Bool
deriving DecidableEq, Repr

/-- `NBCStationTester.run_all` (lines 344-372).  On setup failure the method
returns the summary of the single setup-error verdict before the try/finally
(`self.driver` is None, nothing to quit); otherwise all 13 checks run and the
`finally` block (lines 367-371) calls `teardown`, which quits the driver. -/
def run_all_trace (name url : String) (env : StationEnv) : StationTrace :=
  if env.setupOk then
    { summary := summary name url (sessionResults env), driverQuit := true }
  else
    { summary := summary name url [setupVerdict env.setupErr], driverQuit := false }

/-- The summary returned by `NBCStationTester.run_all`. -/
def run_all (name url : String) (env : StationEnv) : StationSummary :=
  (run_all_trace name url env).summary

/-- Exit code of `main` in src/multi_nbc_test.py (lines 435-457):
`stations_failed = sum(1 for r in all_results if r["overall_status"] ==
"FAIL")` and `return 0 if summary["stations_failed"] == 0 else 1`. -/
def main_exit (results : List StationSummary) : Nat :=
  if results.countP (fun r => decide (r.overall_status = Status.FAIL)) = 0
  then 0 else 1

end MultiNbc

namespace NbcTest

/-- Environment of one `NBCStationTester` session (src/nbc_test.py): whether
`setup_driver` succeeds, the truncated exception text recorded when it does
not, and the outcome of each of the 15 checks in execution order.  A `perf`
outcome of status FAIL stands for `test_page_performance` recording a FAIL
verdict (load timeout, load exception, or a measured load time of ten seconds
or more) and returning False. -/
structure TestEnv where
  setupOk : Bool
  setupErr : String
  perf : CheckOutcome
  pageSize : CheckOutcome
  jsErrors : CheckOutcome
  images : CheckOutcome
  videoPage : CheckOutcome
  weatherPage : CheckOutcome
  adsValidation : CheckOutcome
  sports : CheckOutcome
  searchBox : CheckOutcome
  socialMedia : CheckOutcome
  footerCompliance : CheckOutcome
  mobileResponsive : CheckOutcome
  scrollPerf : CheckOutcome
  navMenu : CheckOutcome
  brokenLinks : CheckOutcome
deriving DecidableEq, Repr

/-- Display name of the first check, `test_page_performance` (line 82). -/
def perfTestName : String := "Page Load Performance"

/-- Display names of the 14 checks run after a successful page load, in the
order `run_all_tests` executes them (lines 577-595). -/
def laterCheckNames : List String :=
  ["Page Size Check", "JavaScript Errors", "Image Loading",
   "Video Page Validation", "Weather Page Validation",
   "Advertisement Validation", "Sports Section", "Search Functionality",
   "Social Media Buttons", "Footer Compliance", "Mobile Responsive",
   "Scroll Performance", "Navigation Menu", "Broken Links"]

/-- Outcomes of the 14 later checks in execution order. -/
def laterCheckOutcomes (env : TestEnv) : List CheckOutcome :=
  [env.pageSize, env.jsErrors, env.images, env.videoPage, env.weatherPage,
   env.adsValidation, env.sports, env.searchBox, env.socialMedia,
   env.footerCompliance, env.mobileResponsive, env.scrollPerf, env.navMenu,
   env.brokenLinks]

/-- Verdict list accumulated by the try-block of `run_all_tests`
(lines 575-595): `test_page_performance` records one verdict and returns
`status != "FAIL"`; only when that is True do the remaining 14 checks run,
each appending exactly one verdict.  On a FAIL no further entry is appended
(there is no skip loop in this file). -/
def sessionResults (env : TestEnv) : List TestResult :=
  let r1 := env.perf.toResult perfTestName
  if r1.status ≠ Status.FAIL then
    r1 :: (laterCheckNames.zip (laterCheckOutcomes env)).map (fun p => p.2.toResult p.1)
  else
    [r1]

/-- Verdict appended by `setup_driver` on failure (line 77); `e` stands for
the truncated exception text `str(e)[:100]`. -/
def setupVerdict (e : String) : TestResult :=
  { test := "Browser Setup", status := Status.ERROR, message := e }

/-- `NBCStationTester.get_summary` (src/nbc_test.py, lines 603-624):
`overall_status = "PASS" if (failed == 0 and errors == 0) else "FAIL"`. -/
def get_summary (name url : String) (rs : List TestResult) : StationSummary :=
  { station_name := name
    station_url := url
    total_tests := rs.length
    passed := countStatus Status.PASS rs
    failed := countStatus Status.FAIL rs
    warnings := countStatus Status.WARNING rs
    errors := countStatus Status.ERROR rs
    overall_status :=
      if countStatus Status.FAIL rs = 0 ∧ countStatus Status.ERROR rs = 0
      then Status.PASS else Status.FAIL
    test_results := rs }

/-- A session run together with whether the `finally` block executed
`self.driver.quit()`. -/
structure RunTrace where
  summary : StationSummary
  driverQuit : Bool
deriving DecidableEq, Repr

/-- `NBCStationTester.run_all_tests` (lines 567-601).  On setup failure the
method returns the summary of the single setup-error verdict before entering
the try/finally (`self.driver` is None); otherwise the check block runs and
the `finally` (lines 596-599) quits the driver on every path. -/
def run_all_tests_trace (name url : String) (env : TestEnv) : RunTrace :=
  if env.setupOk then
    { summary := get_summary name url (sessionResults env), driverQuit := true }
  else
    { summary := get_summary name url [setupVerdict env.setupErr], driverQuit := false }

/-- The summary returned by `NBCStationTester.run_all_tests`. -/
def run_all_tests (name url : String) (env : TestEnv) : StationSummary :=
  (run_all_tests_trace name url env).summary

/-- Exit code of `main` in src/nbc_test.py (lines 758-798): the function
computes `stations_failed` for its JSON summary but ends with a plain
`return 0` (line 798) — the exit code never depends on the results. -/
def main_exit (results : List StationSummary) : Nat :=
  let _ := results
  0

end NbcTest

/-! Concrete inputs used by the witnesses and counterexamples. -/

/-- A demonstration station name (the single configured target of all three
scripts). -/
def demoName : String := "New York"

/-- The configured address of the demonstration target. -/
def demoUrl : String := "https://www.nbcnewyork.com/"

/-- A demonstration message for a passing check. -/
def okMsg : String := "ok"

/-- A check outcome that passed. -/
def passOutcome : CheckOutcome := { status := CheckStatus.PASS, message := okMsg }

/-- A check outcome that failed (for a load check: the timeout path). -/
def loadTimeoutOutcome : CheckOutcome :=
  { status := CheckStatus.FAIL, message := "Page load timeout after 20s" }

/-- A site-session environment in which the driver starts and all six checks
pass. -/
def allPassSiteEnv : MultiSite.SiteEnv :=
  { driverOk := true, driverErr := okMsg
    homepage := passOutcome, navMenu := passOutcome, searchFeature := passOutcome
    contentArticles := passOutcome, footerSection := passOutcome
    responsiveElements := passOutcome }

/-- A site-session environment in which the driver starts but the homepage
load times out. -/
def timeoutSiteEnv : MultiSite.SiteEnv :=
  { allPassSiteEnv with homepage := loadTimeoutOutcome }

/-- A task for the demonstration target that runs for 120 seconds of
wall-clock time — twice the 60-second per-site timeout of
`future.result(timeout=60)` — and whose session passes every check. -/
def slowPassingTask : MultiSite.SubmittedTask :=
  { name := demoName, url := demoUrl, duration := 120
    behavior := Except.ok (MultiSite.SiteRun.runs allPassSiteEnv) }

/-- Two demonstration sites for the orchestrator witness. -/
def demoSites : List (String × String) :=
  [(demoName, demoUrl), ("Chicago", "https://www.nbcchicago.com/")]

/-- Demonstration behaviour: the first site runs a fully passing session, the
second raises past `test_single_site`. -/
def demoBeh (s : String × String) : Nat × Except String MultiSite.SiteRun :=
  if s.1 = demoName then (3, Except.ok (MultiSite.SiteRun.runs allPassSiteEnv))
  else (5, Except.error "worker crashed")

/-- A 15-check environment whose page load records FAIL. -/
def perfFailTestEnv : NbcTest.TestEnv :=
  { setupOk := true, setupErr := okMsg
    perf := { status := CheckStatus.FAIL, message := "Very slow: 12.00s" }
    pageSize := passOutcome, jsErrors := passOutcome, images := passOutcome
    videoPage := passOutcome, weatherPage := passOutcome
    adsValidation := passOutcome, sports := passOutcome
    searchBox := passOutcome, socialMedia := passOutcome
    footerCompliance := passOutcome, mobileResponsive := passOutcome
    scrollPerf := passOutcome, navMenu := passOutcome, brokenLinks := passOutcome }

/-- A 15-check environment in which every check runs and one of them (the
weather-page validation) records FAIL. -/
def weatherFailTestEnv : NbcTest.TestEnv :=
  { perfFailTestEnv with
    perf := { status := CheckStatus.PASS, message := "Fast: 2.10s" }
    weatherPage := { status := CheckStatus.FAIL, message := "Weather forecast not visible" } }

/-- A 13-check environment in which setup succeeds, the JavaScript-errors
check records FAIL and the remaining twelve checks pass. -/
def jsFailStationEnv : MultiNbc.StationEnv :=
  { setupOk := true, setupErr := okMsg
    perf := passOutcome, pageSize := passOutcome
    jsErrors := { status := CheckStatus.FAIL, message := "5 JS error(s)" }
    images := passOutcome, videoPresence := passOutcome
    weatherWidget := passOutcome, mobileResponsive := passOutcome
    adsPresence := passOutcome, navMenu := passOutcome
    footerCompliance := passOutcome, weatherNav := passOutcome
    adIframe := passOutcome, videoFunctional := passOutcome }

/-- A 13-check environment whose setup fails. -/
def setupFailStationEnv : MultiNbc.StationEnv :=
  { jsFailStationEnv with
    setupOk := false
    setupErr := "chromedriver executable needs to be in PATH" }

/-- A site-session environment whose driver creation fails. -/
def driverFailSiteEnv : MultiSite.SiteEnv :=
  { allPassSiteEnv with
    driverOk := false
    driverErr := "session not created from disconnected error" }

/-- A 15-check environment whose setup fails. -/
def setupFailTestEnv : NbcTest.TestEnv :=
  { perfFailTestEnv with setupOk := false, setupErr := "cannot find Chrome binary" }

/-! Helper lemmas. -/

/-- A status count is zero exactly when no recorded verdict carries that
status. -/
theorem countStatus_eq_zero {s : Status} {rs : List TestResult} :
    countStatus s rs = 0 ↔ ∀ r ∈ rs, r.status ≠ s := by
  simp [countStatus, List.countP_eq_zero]

/-- A status count is positive exactly when some recorded verdict carries that
status. -/
theorem countStatus_pos {s : Status} {rs : List TestResult} :
    0 < countStatus s rs ↔ ∃ r ∈ rs, r.status = s := by
  simp [countStatus, List.countP_pos_iff]

/-- The overall-status conditional of the two station summaries evaluates to
FAIL exactly when some verdict is FAIL or ERROR. -/
theorem overall_if_fail_iff (rs : List TestResult) :
    ((if countStatus Status.FAIL rs = 0 ∧ countStatus Status.ERROR rs = 0
      then Status.PASS else Status.FAIL) = Status.FAIL)
      ↔ ∃ r ∈ rs, r.status = Status.FAIL ∨ r.status = Status.ERROR := by
  split_ifs with h
  · rcases h with ⟨hf, he⟩
    rw [countStatus_eq_zero] at hf he
    constructor
    · intro hc; exact absurd hc (by decide)
    · rintro ⟨r, hr, h1 | h1⟩
      · exact absurd h1 (hf r hr)
      · exact absurd h1 (he r hr)
  · constructor
    · intro _
      rcases not_and_or.mp h with hf | he
      · rcases countStatus_pos.mp (Nat.pos_of_ne_zero hf) with ⟨r, hr, hs⟩
        exact ⟨r, hr, Or.inl hs⟩
      · rcases countStatus_pos.mp (Nat.pos_of_ne_zero he) with ⟨r, hr, hs⟩
        exact ⟨r, hr, Or.inr hs⟩
    · intro _; rfl

/-- The overall-status conditional evaluates to PASS exactly when no verdict
is FAIL or ERROR. -/
theorem overall_if_pass_iff (rs : List TestResult) :
    ((if countStatus Status.FAIL rs = 0 ∧ countStatus Status.ERROR rs = 0
      then Status.PASS else Status.FAIL) = Status.PASS)
      ↔ ¬ ∃ r ∈ rs, r.status = Status.FAIL ∨ r.status = Status.ERROR := by
  constructor
  · intro hp hex
    have hfail := (overall_if_fail_iff rs).mpr hex
    rw [hp] at hfail
    exact absurd hfail (by decide)
  · intro hne
    by_cases hc : countStatus Status.FAIL rs = 0 ∧ countStatus Status.ERROR rs = 0
    · exact if_pos hc
    · exact absurd ((overall_if_fail_iff rs).mp (if_neg hc)) hne

/-- The four multi-site counters cover every verdict exactly once. -/
theorem counts_partition (rs : List TestResult) :
    countStatus Status.PASS rs + countFailErr rs + countStatus Status.WARNING rs
      + countStatus Status.SKIP rs = rs.length := by
  induction rs with
  | nil => rfl
  | cons r t ih =>
    simp only [countStatus, countFailErr, List.countP_cons, List.length_cons] at ih ⊢
    cases h : r.status <;> simp only [h] <;> simp <;> omega

/-- The four station counters cover every verdict exactly once on lists
containing no SKIP verdict. -/
theorem counts_partition_noskip :
    ∀ rs : List TestResult, (∀ r ∈ rs, r.status ≠ Status.SKIP) →
      countStatus Status.PASS rs + countStatus Status.FAIL rs
        + countStatus Status.WARNING rs + countStatus Status.ERROR rs = rs.length := by
  intro rs
  induction rs with
  | nil => intro _; rfl
  | cons r t ih =>
    intro h
    have hr : r.status ≠ Status.SKIP := h r (List.mem_cons_self r t)
    have ht := ih (fun x hx => h x (List.mem_cons_of_mem r hx))
    simp only [countStatus, List.countP_cons, List.length_cons] at ht ⊢
    cases hs : r.status
    · simp only [hs] ; simp ; omega
    · simp only [hs] ; simp ; omega
    · simp only [hs] ; simp ; omega
    · simp only [hs] ; simp ; omega
    · exact absurd hs hr

/-- No check-level status maps to SKIP. -/
theorem toStatus_ne_skip (c : CheckStatus) : c.toStatus ≠ Status.SKIP := by
  cases c <;> decide

/-- Verdicts produced by zipping check names with check outcomes are never
SKIP. -/
theorem mem_zip_map_ne_skip {names : List String} {cs : List CheckOutcome} {r : TestResult}
    (hr : r ∈ (names.zip cs).map (fun p => p.2.toResult p.1)) :
    r.status ≠ Status.SKIP := by
  rcases List.mem_map.mp hr with ⟨p, _, rfl⟩
  exact toStatus_ne_skip p.2.status

/-- Every verdict recorded by a `multi_nbc_test.py` session has a status other
than SKIP (checks yield PASS / WARNING / FAIL, setup failure yields ERROR). -/
theorem multiNbc_no_skip (n u : String) (env : MultiNbc.StationEnv) :
    ∀ r ∈ (MultiNbc.run_all n u env).test_results, r.status ≠ Status.SKIP := by
  intro r hr
  by_cases hs : env.setupOk = true
  · simp only [MultiNbc.run_all, MultiNbc.run_all_trace, MultiNbc.summary, hs, if_true] at hr
    exact mem_zip_map_ne_skip hr
  · simp only [MultiNbc.run_all, MultiNbc.run_all_trace, MultiNbc.summary, hs, if_false,
      Bool.false_eq_true] at hr
    rw [List.mem_singleton] at hr
    subst hr
    exact fun hc => nomatch hc

/-- Every verdict recorded by the check block of an `nbc_test.py` session has
a status other than SKIP. -/
theorem nbcTest_session_no_skip (env : NbcTest.TestEnv) :
    ∀ r ∈ NbcTest.sessionResults env, r.status ≠ Status.SKIP := by
  intro r hr
  simp only [NbcTest.sessionResults] at hr
  split at hr
  · rcases List.mem_cons.mp hr with h1 | h1
    · subst h1; exact toStatus_ne_skip env.perf.status
    · exact mem_zip_map_ne_skip h1
  · rw [List.mem_singleton] at hr
    subst hr
    exact toStatus_ne_skip env.perf.status

/-- Every verdict recorded by an `nbc_test.py` session has a status other than
SKIP. -/
theorem nbcTest_no_skip (n u : String) (env : NbcTest.TestEnv) :
    ∀ r ∈ (NbcTest.run_all_tests n u env).test_results, r.status ≠ Status.SKIP := by
  intro r hr
  by_cases hs : env.setupOk = true
  · simp only [NbcTest.run_all_tests, NbcTest.run_all_tests_trace, NbcTest.get_summary,
      hs, if_true] at hr
    exact nbcTest_session_no_skip env r hr
  · simp only [NbcTest.run_all_tests, NbcTest.run_all_tests_trace, NbcTest.get_summary,
      hs, if_false, Bool.false_eq_true] at hr
    rw [List.mem_singleton] at hr
    subst hr
    exact fun hc => nomatch hc

/-! Claim theorems. -/

/-- C2: for every finished session of the two station testers, the per-target
`overall_status` equals FAIL if any recorded verdict has status FAIL or ERROR,
and equals PASS otherwise. -/
theorem C2_overall_status_law :
    ∀ (n u : String) (rs : List TestResult),
      ((MultiNbc.summary n u rs).overall_status = Status.FAIL
        ↔ ∃ r ∈ (MultiNbc.summary n u rs).test_results,
            r.status = Status.FAIL ∨ r.status = Status.ERROR)
      ∧ ((MultiNbc.summary n u rs).overall_status = Status.PASS
        ↔ ¬ ∃ r ∈ (MultiNbc.summary n u rs).test_results,
            r.status = Status.FAIL ∨ r.status = Status.ERROR)
      ∧ ((NbcTest.get_summary n u rs).overall_status = Status.FAIL
        ↔ ∃ r ∈ (NbcTest.get_summary n u rs).test_results,
            r.status = Status.FAIL ∨ r.status = Status.ERROR)
      ∧ ((NbcTest.get_summary n u rs).overall_status = Status.PASS
        ↔ ¬ ∃ r ∈ (NbcTest.get_summary n u rs).test_results,
            r.status = Status.FAIL ∨ r.status = Status.ERROR) := by
  intro n u rs
  exact ⟨overall_if_fail_iff rs, overall_if_pass_iff rs,
    overall_if_fail_iff rs, overall_if_pass_iff rs⟩

/-- C10: the status counters partition the recorded verdict list in every
summary: in the multi-site tester `passed + failed + warnings + skipped`
equals `total_tests` (with `failed` counting FAIL and ERROR verdicts), and in
the two single-run station testers `passed + failed + warnings + errors`
equals `total_tests` for every reachable session. -/
theorem C10_summary_counters_partition :
    (∀ (n u : String) (rs : List TestResult),
        (MultiSite.get_summary n u rs).passed + (MultiSite.get_summary n u rs).failed
          + (MultiSite.get_summary n u rs).warnings + (MultiSite.get_summary n u rs).skipped
          = (MultiSite.get_summary n u rs).total_tests)
    ∧ (∀ (n u : String) (env : MultiNbc.StationEnv),
        (MultiNbc.run_all n u env).passed + (MultiNbc.run_all n u env).failed
          + (MultiNbc.run_all n u env).warnings + (MultiNbc.run_all n u env).errors
          = (MultiNbc.run_all n u env).total_tests)
    ∧ (∀ (n u : String) (env : NbcTest.TestEnv),
        (NbcTest.run_all_tests n u env).passed + (NbcTest.run_all_tests n u env).failed
          + (NbcTest.run_all_tests n u env).warnings + (NbcTest.run_all_tests n u env).errors
          = (NbcTest.run_all_tests n u env).total_tests) := by
  refine ⟨fun n u rs => counts_partition rs, fun n u env => ?_, fun n u env => ?_⟩
  · by_cases hs : env.setupOk = true
    · simp only [MultiNbc.run_all, MultiNbc.run_all_trace, MultiNbc.summary, hs, if_true]
      exact counts_partition_noskip (MultiNbc.sessionResults env)
        (fun r hr => mem_zip_map_ne_skip hr)
    · simp only [MultiNbc.run_all, MultiNbc.run_all_trace, MultiNbc.summary, hs, if_false,
        Bool.false_eq_true]
      exact counts_partition_noskip [MultiNbc.setupVerdict env.setupErr]
        (by intro r hr; rw [List.mem_singleton] at hr; subst hr; exact fun hc => nomatch hc)
  · by_cases hs : env.setupOk = true
    · simp only [NbcTest.run_all_tests, NbcTest.run_all_tests_trace, NbcTest.get_summary,
        hs, if_true]
      exact counts_partition_noskip (NbcTest.sessionResults env) (nbcTest_session_no_skip env)
    · simp only [NbcTest.run_all_tests, NbcTest.run_all_tests_trace, NbcTest.get_summary,
        hs, if_false, Bool.false_eq_true]
      exact counts_partition_noskip [NbcTest.setupVerdict env.setupErr]
        (by intro r hr; rw [List.mem_singleton] at hr; subst hr; exact fun hc => nomatch hc)

/-- C5: when page-handle acquisition (driver creation) fails, the session
returns a result containing a single ERROR verdict describing the failure and
attempts zero further checks, in both the multi-site tester and
multi_nbc_test.py. -/
theorem C5_acquisition_failure_single_error (n u : String)
    (env1 : MultiSite.SiteEnv) (env2 : MultiNbc.StationEnv)
    (h1 : env1.driverOk = false) (h2 : env2.setupOk = false) :
    (MultiSite.run_tests n u env1).test_results = [MultiSite.driverSetupVerdict env1.driverErr]
    ∧ (MultiSite.run_tests n u env1).total_tests = 1
    ∧ (MultiNbc.run_all n u env2).test_results = [MultiNbc.setupVerdict env2.setupErr]
    ∧ (MultiNbc.run_all n u env2).total_tests = 1 := by
  refine ⟨?_, ?_, ?_, ?_⟩ <;>
    simp [MultiSite.run_tests, MultiSite.run_tests_trace, MultiSite.driverFailSummary,
      MultiNbc.run_all, MultiNbc.run_all_trace, MultiNbc.summary, h1, h2]

/-- C5 witness: a concrete driver-creation failure in each tester. -/
theorem C5_witness :
    (MultiSite.run_tests demoName demoUrl driverFailSiteEnv).test_results
        = [MultiSite.driverSetupVerdict driverFailSiteEnv.driverErr]
    ∧ (MultiSite.run_tests demoName demoUrl driverFailSiteEnv).total_tests = 1
    ∧ (MultiNbc.run_all demoName demoUrl setupFailStationEnv).test_results
        = [MultiNbc.setupVerdict setupFailStationEnv.setupErr]
    ∧ (MultiNbc.run_all demoName demoUrl setupFailStationEnv).total_tests = 1 :=
  C5_acquisition_failure_single_error demoName demoUrl driverFailSiteEnv setupFailStationEnv
    rfl rfl

/-- C6: in `multi_nbc_test.py`, once setup succeeds all 13 checks execute in
the configured sequence and are independent: the recorded verdict list always
has one entry per check, in order, and the i-th entry carries exactly the i-th
check's own status and message, whatever verdicts (including FAIL) the other
checks produce — the environment of every other check is universally
quantified. -/
theorem C6_checks_independent (n u : String) (env : MultiNbc.StationEnv)
    (h : env.setupOk = true) :
    (MultiNbc.run_all n u env).test_results.length = 13
    ∧ (MultiNbc.run_all n u env).test_results.map (fun r => r.test) = MultiNbc.checkNames
    ∧ (MultiNbc.run_all n u env).test_results.map (fun r => r.status)
        = (MultiNbc.checkOutcomes env).map (fun c => c.status.toStatus)
    ∧ (MultiNbc.run_all n u env).test_results.map (fun r => r.message)
        = (MultiNbc.checkOutcomes env).map (fun c => c.message) := by
  simp only [MultiNbc.run_all, MultiNbc.run_all_trace, MultiNbc.summary, h, if_true]
  exact ⟨rfl, rfl, rfl, rfl⟩

/-- C6 witness: a session whose JavaScript-errors check fails still records
all thirteen verdicts in order. -/
theorem C6_witness :
    (MultiNbc.run_all demoName demoUrl jsFailStationEnv).test_results.length = 13
    ∧ (MultiNbc.run_all demoName demoUrl jsFailStationEnv).test_results.map
        (fun r => r.test) = MultiNbc.checkNames
    ∧ (MultiNbc.run_all demoName demoUrl jsFailStationEnv).test_results.map
        (fun r => r.status)
        = (MultiNbc.checkOutcomes jsFailStationEnv).map (fun c => c.status.toStatus)
    ∧ (MultiNbc.run_all demoName demoUrl jsFailStationEnv).test_results.map
        (fun r => r.message)
        = (MultiNbc.checkOutcomes jsFailStationEnv).map (fun c => c.message) :=
  C6_checks_independent demoName demoUrl jsFailStationEnv rfl

/-- C7: the effective worker-pool size is `min(w, 10)` for every requested
worker count `w`: it never exceeds the hard cap of 10, equals the request when
the request is within the cap, and equals 10 otherwise. -/
theorem C7_worker_pool_cap (w : Int) :
    MultiSite.init_max_workers w ≤ 10
    ∧ (w ≤ 10 → MultiSite.init_max_workers w = w)
    ∧ (10 ≤ w → MultiSite.init_max_workers w = 10) :=
  ⟨min_le_right w 10, fun h => min_eq_left h, fun h => min_eq_right h⟩

/-- C7 witness: requesting 25 workers yields a pool of exactly 10. -/
theorem C7_witness :
    MultiSite.init_max_workers 25 = 10 ∧ MultiSite.init_max_workers 25 ≤ 10 :=
  ⟨(C7_worker_pool_cap 25).2.2 (by decide), (C7_worker_pool_cap 25).1⟩

/-- C8: the page handle is released exactly on the sessions that acquired it:
whenever driver creation succeeds, the `finally` teardown quits the driver on
every exit path (all check environments are universally quantified; no check
can raise past its own handler and no external mechanism can interrupt the
session, so these are all the exit paths), in both
`NBCSiteTester.run_tests` and `nbc_test.py`'s `run_all_tests`. -/
theorem C8_driver_released_iff_acquired :
    ∀ (n u : String) (env1 : MultiSite.SiteEnv) (env2 : NbcTest.TestEnv),
      (MultiSite.run_tests_trace n u env1).driverQuit = env1.driverOk
      ∧ (NbcTest.run_all_tests_trace n u env2).driverQuit = env2.setupOk := by
  intro n u env1 env2
  constructor
  · cases h : env1.driverOk <;> simp [MultiSite.run_tests_trace, h]
  · cases h : env2.setupOk <;> simp [NbcTest.run_all_tests_trace, h]

/-- Every collected summary carries the site name its task was submitted
with: the session summaries, the fatal dict and the synthetic error dict all
set `site_name` from the submitted name. -/
theorem collectResult_site_name (t : MultiSite.SubmittedTask) :
    (MultiSite.collectResult t).site_name = t.name := by
  rcases t with ⟨name, url, dur, beh⟩
  rcases beh with e | b
  · rfl
  · rcases b with env | e2
    · by_cases h : env.driverOk = true <;>
        simp [MultiSite.collectResult, MultiSite.test_single_site, MultiSite.run_tests,
          MultiSite.run_tests_trace, MultiSite.get_summary, MultiSite.driverFailSummary, h]
    · rfl

/-- C1: the final aggregate holds exactly one per-target result for each
input target: whatever order the futures complete in (any permutation of the
submitted tasks) and whatever each task does (finish normally, return a fatal
dict or raise into the collector's `except` branch), the collected list has
one entry per input site and its site names are exactly the input names. -/
theorem C1_one_result_per_target (sites : List (String × String))
    (beh : String × String → Nat × Except String MultiSite.SiteRun)
    (completed : List MultiSite.SubmittedTask)
    (hperm : completed.Perm (MultiSite.submit sites beh)) :
    (MultiSite.run_all_tests completed).length = sites.length
    ∧ ((MultiSite.run_all_tests completed).map (fun s => s.site_name)).Perm
        (sites.map Prod.fst) := by
  constructor
  · have hlen := hperm.length_eq
    simpa [MultiSite.run_all_tests, MultiSite.submit] using hlen
  · have h2 := hperm.map (fun t => (MultiSite.collectResult t).site_name)
    have h3 : (MultiSite.submit sites beh).map
        (fun t => (MultiSite.collectResult t).site_name) = sites.map Prod.fst := by
      simp only [MultiSite.submit, List.map_map]
      refine List.map_congr_left ?_
      intro s _
      exact collectResult_site_name _
    have h4 : (MultiSite.run_all_tests completed).map (fun s => s.site_name)
        = completed.map (fun t => (MultiSite.collectResult t).site_name) := by
      simp [MultiSite.run_all_tests, List.map_map, Function.comp]
    rw [h3] at h2
    rw [h4]
    exact h2

/-- C1 witness: two sites — one passing session, one crashing worker —
collected in reversed completion order still yield one result per site. -/
theorem C1_witness :
    (MultiSite.run_all_tests ((MultiSite.submit demoSites demoBeh).reverse)).length
        = demoSites.length
    ∧ ((MultiSite.run_all_tests ((MultiSite.submit demoSites demoBeh).reverse)).map
        (fun s => s.site_name)).Perm (demoSites.map Prod.fst) :=
  C1_one_result_per_target demoSites demoBeh _ (List.reverse_perm _)

/-- C3 (code bug): the per-site timeout is never enforced.  A task whose
session runs for 120 seconds — double the 60-second timeout passed to
`future.result` — and passes every check has its real, fully passing summary
recorded: zero failures, every check passed, and no ERROR verdict mentioning a
timeout.  `as_completed` is called without a timeout, so the loop body only
ever sees finished futures, on which `result(timeout=60)` returns immediately;
the comment "60 second timeout per site" on line 562 describes behaviour the
code cannot exhibit. -/
theorem C3_per_site_timeout_never_fires :
    60 < slowPassingTask.duration
    ∧ MultiSite.run_all_tests [slowPassingTask]
        = [MultiSite.run_tests demoName demoUrl allPassSiteEnv]
    ∧ (MultiSite.collectResult slowPassingTask).failed = 0
    ∧ (MultiSite.collectResult slowPassingTask).passed
        = (MultiSite.collectResult slowPassingTask).total_tests
    ∧ countStatus Status.ERROR (MultiSite.collectResult slowPassingTask).test_results = 0 :=
  ⟨by decide, rfl, rfl, rfl, rfl⟩

/-- C4 counterexample: in the multi-site tester a session whose homepage load
fails does not stop at the single FAIL verdict: the record holds six entries —
the FAIL followed by five SKIP verdicts, one per aborted check — so the claim
that zero entries follow the FAIL verdict is false on this file. -/
theorem C4_counterexample :
    (MultiSite.run_tests demoName demoUrl timeoutSiteEnv).test_results.length = 6
    ∧ (MultiSite.run_tests demoName demoUrl timeoutSiteEnv).test_results.map
        (fun r => r.status) = Status.FAIL :: List.replicate 5 Status.SKIP
    ∧ ¬ (MultiSite.run_tests demoName demoUrl timeoutSiteEnv).test_results.length = 1 :=
  ⟨rfl, rfl, by decide⟩

/-- C4 (amended): a session whose page load records FAIL aborts the remaining
checks with exactly one FAIL verdict in the record; in nbc_test.py no further
entry follows, while in the multi-site tester the five aborted checks each
record a SKIP verdict (no executed-check verdict follows the FAIL). -/
theorem C4_load_fail_aborts_checks (n u : String)
    (env1 : NbcTest.TestEnv) (env2 : MultiSite.SiteEnv)
    (h1 : env1.setupOk = true) (h2 : env1.perf.status = CheckStatus.FAIL)
    (h3 : env2.driverOk = true) (h4 : env2.homepage.status = CheckStatus.FAIL) :
    (NbcTest.run_all_tests n u env1).test_results
        = [env1.perf.toResult NbcTest.perfTestName]
    ∧ countStatus Status.FAIL (NbcTest.run_all_tests n u env1).test_results = 1
    ∧ (MultiSite.run_tests n u env2).test_results.map (fun r => r.test)
        = MultiSite.homepageTestName :: MultiSite.checkNames
    ∧ (MultiSite.run_tests n u env2).test_results.map (fun r => r.status)
        = Status.FAIL :: List.replicate 5 Status.SKIP
    ∧ countStatus Status.FAIL (MultiSite.run_tests n u env2).test_results = 1 := by
  have e1 : (env1.perf.toResult NbcTest.perfTestName).status = Status.FAIL := by
    simp [CheckOutcome.toResult, h2, CheckStatus.toStatus]
  have e2 : (env2.homepage.toResult MultiSite.homepageTestName).status = Status.FAIL := by
    simp [CheckOutcome.toResult, h4, CheckStatus.toStatus]
  refine ⟨?_, ?_, ?_, ?_, ?_⟩
  · simp [NbcTest.run_all_tests, NbcTest.run_all_tests_trace, NbcTest.get_summary, h1,
      NbcTest.sessionResults, e1]
  · simp [NbcTest.run_all_tests, NbcTest.run_all_tests_trace, NbcTest.get_summary, h1,
      NbcTest.sessionResults, e1, countStatus]
  · simp [MultiSite.run_tests, MultiSite.run_tests_trace, MultiSite.get_summary, h3,
      MultiSite.sessionResults, e2, MultiSite.checkNames, CheckOutcome.toResult, h4,
      CheckStatus.toStatus]
  · simp [MultiSite.run_tests, MultiSite.run_tests_trace, MultiSite.get_summary, h3,
      MultiSite.sessionResults, e2, MultiSite.checkNames, CheckOutcome.toResult, h4,
      CheckStatus.toStatus]
  · simp [MultiSite.run_tests, MultiSite.run_tests_trace, MultiSite.get_summary, h3,
      MultiSite.sessionResults, e2, MultiSite.checkNames, countStatus, CheckOutcome.toResult,
      h4, CheckStatus.toStatus]

/-- C4 witness: a concrete load-timeout session in each tester. -/
theorem C4_witness :
    (NbcTest.run_all_tests demoName demoUrl perfFailTestEnv).test_results
        = [perfFailTestEnv.perf.toResult NbcTest.perfTestName]
    ∧ countStatus Status.FAIL
        (NbcTest.run_all_tests demoName demoUrl perfFailTestEnv).test_results = 1
    ∧ (MultiSite.run_tests demoName demoUrl timeoutSiteEnv).test_results.map
        (fun r => r.test) = MultiSite.homepageTestName :: MultiSite.checkNames
    ∧ (MultiSite.run_tests demoName demoUrl timeoutSiteEnv).test_results.map
        (fun r => r.status) = Status.FAIL :: List.replicate 5 Status.SKIP
    ∧ countStatus Status.FAIL
        (MultiSite.run_tests demoName demoUrl timeoutSiteEnv).test_results = 1 :=
  C4_load_fail_aborts_checks demoName demoUrl perfFailTestEnv timeoutSiteEnv rfl rfl rfl rfl

/-- C9 counterexample: a run of nbc_test.py over one station whose session
records a FAIL verdict (so its overall result is FAIL) still exits with code
0 — `main` ends with a plain `return 0` — refuting "non-zero iff at least one
target failed" as stated over all three entry points. -/
theorem C9_counterexample :
    (NbcTest.run_all_tests demoName demoUrl weatherFailTestEnv).overall_status = Status.FAIL
    ∧ NbcTest.main_exit [NbcTest.run_all_tests demoName demoUrl weatherFailTestEnv] = 0 :=
  ⟨by decide, rfl⟩

/-- C9 (amended): the exit code of multi_nbc_test.py is non-zero exactly when
some target's overall_status is FAIL, and the exit code of
nbc_multi_site_tester.py is non-zero exactly when some site result has a
positive failure count or a truthy error field; nbc_test.py's main always
exits 0 regardless of the results. -/
theorem C9_exit_codes :
    (∀ rs : List StationSummary,
        MultiNbc.main_exit rs ≠ 0 ↔ ∃ s ∈ rs, s.overall_status = Status.FAIL)
    ∧ (∀ rs : List MultiSite.SiteSummary,
        MultiSite.main_exit rs ≠ 0
          ↔ ∃ s ∈ rs, ¬ (s.failed = 0 ∧ MultiSite.errorFalsy s.error = true))
    ∧ (∀ rs : List StationSummary, NbcTest.main_exit rs = 0) := by
  refine ⟨fun rs => ?_, fun rs => ?_, fun rs => rfl⟩
  · simp only [MultiNbc.main_exit]
    split_ifs with h
    · constructor
      · intro h0; exact absurd rfl h0
      · rintro ⟨s, hs, hf⟩
        have hz := List.countP_eq_zero.mp h s hs
        simp [hf] at hz
    · constructor
      · intro _
        rcases List.countP_pos_iff.mp (Nat.pos_of_ne_zero h) with ⟨s, hs, hp⟩
        exact ⟨s, hs, of_decide_eq_true hp⟩
      · intro _; exact one_ne_zero
  · simp only [MultiSite.main_exit]
    split_ifs with h
    · constructor
      · intro h0; exact absurd rfl h0
      · rintro ⟨s, hs, hns⟩
        have hall := List.countP_eq_length.mp h s hs
        rw [Bool.and_eq_true] at hall
        exact absurd ⟨of_decide_eq_true hall.1, hall.2⟩ hns
    · constructor
      · intro _
        have hnall : ¬ ∀ s ∈ rs,
            (decide (s.failed = 0) && MultiSite.errorFalsy s.error) = true :=
          fun hc => h (List.countP_eq_length.mpr hc)
        push_neg at hnall
        rcases hnall with ⟨s, hs, hns⟩
        refine ⟨s, hs, fun hc => hns ?_⟩
        rw [Bool.and_eq_true]
        exact ⟨decide_eq_true hc.1, hc.2⟩
      · intro _; exact one_ne_zero
